import Mathlib

/-
  Shallow embedding of the MM-Whistle market-making wallet program
  (src/lib.rs, Anchor/Solana).  Machine integers are modelled as:
    * u64  -> Nat, with saturating operations written out explicitly
              (Nat subtraction is truncated, matching `saturating_sub`),
              checked operations guarded by `≤ U64MAX`, and the one
              unchecked u64 addition written with an explicit `% 2^64`;
    * i64  -> Int, with checked additions guarded by the i64 range and
              the one unchecked i64 addition (in `can_trade`) written
              with an explicit two's-complement wrap (`i64wrap`), as a
              release-profile Rust build silently wraps there;
    * Pubkey -> Nat, with 0 standing for `Pubkey::default()` (the null
              identity); the two venue program ids are distinct opaque
              constants.
  Fallible handlers return `Except MmWalletError _`.  Layout-only fields
  of the on-chain record (`version`, `bump`, `reserved`) and the event /
  CPI-payload plumbing are omitted: no handler's control flow or state
  update reads them.
-/

namespace MMWhistle

/-- Equality on `Except` values is decidable when it is on both components;
used to evaluate handlers on concrete inputs. -/
instance {ε α : Type} [DecidableEq ε] [DecidableEq α] : DecidableEq (Except ε α)
  | .ok a, .ok b =>
    if h : a = b then .isTrue (congrArg Except.ok h)
    else .isFalse (fun hc => h (Except.ok.inj hc))
  | .ok _, .error _ => .isFalse (fun hc => Except.noConfusion hc)
  | .error _, .ok _ => .isFalse (fun hc => Except.noConfusion hc)
  | .error e, .error f =>
    if h : e = f then .isTrue (congrArg Except.error h)
    else .isFalse (fun hc => h (Except.error.inj hc))

/-- Largest u64 value, `u64::MAX = 2^64 - 1`. -/
def U64MAX : ℕ := 2 ^ 64 - 1

/-- Two's-complement wraparound of an i64 addition result (release-build
Rust semantics of an unchecked `+` on `i64`). -/
def i64wrap (x : ℤ) : ℤ := (x + 2 ^ 63) % 2 ^ 64 - 2 ^ 63

/-- Saturating u64 addition (`u64::saturating_add`). -/
def u64satAdd (a b : ℕ) : ℕ := min (a + b) U64MAX

/-- Wrapping u64 addition (release-build semantics of the unchecked
`+=` in `withdraw`'s destination-balance update). -/
def u64wrapAdd (a b : ℕ) : ℕ := (a + b) % 2 ^ 64

/-- Checked i64 addition: `i64::checked_add` mapped through
`ok_or(MathOverflow)` as every call site in the source does. -/
def i64CheckedAdd (a b : ℤ) (e : ε) : Except ε ℤ :=
  if -(2 ^ 63) ≤ a + b ∧ a + b < 2 ^ 63 then .ok (a + b) else .error e

/-- Pump.fun program id (an opaque, nonzero key distinct from the
PumpSwap id; the concrete base58 value is irrelevant to the logic). -/
def PUMP_FUN_PROGRAM : ℕ := 1000000001

/-- PumpSwap program id (opaque, nonzero, distinct from Pump.fun). -/
def PUMPSWAP_PROGRAM : ℕ := 1000000002

/-- Minimum SOL to keep for rent (0.01 SOL). -/
def MIN_RENT_RESERVE : ℕ := 10000000

/-- Maximum trade percentage (50% of balance). -/
def MAX_TRADE_PCT : ℕ := 50

/-- Minimum lock duration (0 = no lock). -/
def MIN_LOCK_SECONDS : ℤ := 0

/-- Maximum lock duration (365 days in seconds). -/
def MAX_LOCK_SECONDS : ℤ := 365 * 24 * 60 * 60

/-- Maximum cumulative lock (5 years in seconds). -/
def MAX_TOTAL_LOCK_SECONDS : ℤ := 5 * 365 * 24 * 60 * 60

/-- Minimum slippage protection (0.1%). -/
def MIN_SLIPPAGE_BPS : ℕ := 10

/-- Maximum slippage allowed (50%). -/
def MAX_SLIPPAGE_BPS : ℕ := 5000

/-- Error kinds of the program (`MmWalletError`). -/
inductive MmWalletError : Type
  | Unauthorized
  | UnauthorizedOperator
  | WalletLocked
  | TradingPaused
  | InvalidLockDuration
  | LockTooLong
  | InvalidTradeSize
  | InvalidSlippage
  | InsufficientBalance
  | TradeExceedsMax
  | InvalidProgram
  | TokenMintMismatch
  | AlreadyInitialized
  | TokenNotCreated
  | TokenMintAlreadySet
  | InvalidWithdrawDestination
  | BelowRentReserve
  | MathOverflow
  | InvalidDelayConfig
  | TradeTooSoon
  | ZeroDeposit
  | InvalidMintAccount
  | InvalidOperator
  deriving DecidableEq, Repr

/-- Strategy types (opaque tags, never branched on by the core). -/
inductive Strategy : Type
  | VolumeBot
  | PriceReactive
  | GridTrading
  | TrendFollower
  | SpreadMM
  | PumpHunter
  deriving DecidableEq, Repr

/-- Strategy configuration (`StrategyConfig`); the u8/u16 fields are
modelled as naturals (the validator and primitives only compare and
scale them). -/
structure StrategyConfig : Type where
  trade_size_pct : ℕ
  min_delay_secs : ℕ
  max_delay_secs : ℕ
  slippage_bps : ℕ
  param1 : ℕ
  param2 : ℕ
  param3 : ℕ
  deriving DecidableEq, Repr

/-- The durable wallet state record (`MmWallet`), logic-relevant fields. -/
structure MmWallet : Type where
  owner : ℕ
  operator : ℕ
  token_mint : ℕ
  nonce : ℕ
  strategy : Strategy
  config : StrategyConfig
  lock_until : ℤ
  paused : Bool
  is_creator : Bool
  total_volume : ℕ
  total_trades : ℕ
  total_fees_claimed : ℕ
  last_trade : ℤ
  created_at : ℤ
  deriving DecidableEq, Repr

namespace MmWallet

/-- Check whether the caller may execute trades: owner or operator. -/
def is_authorized (w : MmWallet) (caller : ℕ) : Bool :=
  caller == w.owner || caller == w.operator

/-- Check whether the wallet is currently locked. -/
def is_locked (w : MmWallet) (current_time : ℤ) : Bool :=
  decide (w.lock_until > 0) && decide (current_time < w.lock_until)

/-- Maximum trade amount:
`available_balance.checked_mul(pct).ok_or(MathOverflow)?.checked_div(100)`;
the division by the nonzero constant 100 never fails. -/
def max_trade_amount (w : MmWallet) (available_balance : ℕ) :
    Except MmWalletError ℕ :=
  if available_balance * w.config.trade_size_pct ≤ U64MAX then
    .ok (available_balance * w.config.trade_size_pct / 100)
  else .error .MathOverflow

/-- Minimum output with slippage protection:
`10000u64.checked_sub(slippage_bps)` then `checked_mul` / `checked_div`. -/
def calculate_min_output (w : MmWallet) (expected_output : ℕ) :
    Except MmWalletError ℕ :=
  if w.config.slippage_bps ≤ 10000 then
    if expected_output * (10000 - w.config.slippage_bps) ≤ U64MAX then
      .ok (expected_output * (10000 - w.config.slippage_bps) / 10000)
    else .error .MathOverflow
  else .error .MathOverflow

/-- Rate-limit check.  The addition `last_trade + min_delay_secs as i64`
is an unchecked i64 `+` in the source, hence the explicit wrap. -/
def can_trade (w : MmWallet) (current_time : ℤ) : Bool :=
  if w.last_trade = 0 then true
  else decide (current_time ≥ i64wrap (w.last_trade + (w.config.min_delay_secs : ℤ)))

end MmWallet

/-- What the spec's words say `canTrade` computes, over unbounded
integers: `lastTrade == 0 ∨ now ≥ lastTrade + minDelaySecs`.  Kept
separate from `MmWallet.can_trade` (the source embedding) so the two
can be compared. -/
def canTradeSpec (w : MmWallet) (current_time : ℤ) : Bool :=
  w.last_trade == 0 || decide (current_time ≥ w.last_trade + (w.config.min_delay_secs : ℤ))

/-- Configuration validator: trade-size bounds, then slippage bounds,
then delay ordering; the first violated check's error is returned. -/
def validate_config (config : StrategyConfig) : Except MmWalletError Unit :=
  if 1 ≤ config.trade_size_pct ∧ config.trade_size_pct ≤ MAX_TRADE_PCT then
    if MIN_SLIPPAGE_BPS ≤ config.slippage_bps ∧ config.slippage_bps ≤ MAX_SLIPPAGE_BPS then
      if config.min_delay_secs ≤ config.max_delay_secs then .ok ()
      else .error .InvalidDelayConfig
    else .error .InvalidSlippage
  else .error .InvalidTradeSize

/-- Fresh-wallet constructor used by the `initialize` handler: validates
the lock duration, the operator, and the config, then builds the record
with `token_mint` null, counters zero and `lock_until = now + lock`
(checked) when a lock was requested. -/
def initWallet (owner nonce : ℕ) (lock_seconds : ℤ) (strategy : Strategy)
    (config : StrategyConfig) (operator : ℕ) (now : ℤ) :
    Except MmWalletError MmWallet :=
  if ¬ (MIN_LOCK_SECONDS ≤ lock_seconds ∧ lock_seconds ≤ MAX_LOCK_SECONDS) then
    .error .InvalidLockDuration
  else if operator = 0 then .error .InvalidOperator
  else match validate_config config with
  | .error e => .error e
  | .ok _ =>
    match (if 0 < lock_seconds
           then i64CheckedAdd now lock_seconds MmWalletError.MathOverflow
           else .ok 0) with
    | .error e => .error e
    | .ok lockUntil =>
      .ok { owner := owner, operator := operator, token_mint := 0,
            nonce := nonce, strategy := strategy, config := config,
            lock_until := lockUntil, paused := false, is_creator := false,
            total_volume := 0, total_trades := 0, total_fees_claimed := 0,
            last_trade := 0, created_at := now }

/-- SOL withdrawal handler.  Inputs beyond the wallet record: the clock,
the signing caller, the destination key, the PDA (vault) lamport balance,
the destination lamport balance and the requested amount.  Returns the
new (vault, destination) balances; the vault-side `-=` and the
destination-side `+=` are unchecked u64 updates in the source, so the
destination update carries an explicit wrap (the vault side is written
with Nat subtraction, and `amount ≤ vault balance` on every success path
is proved separately). -/
def withdraw (w : MmWallet) (now : ℤ) (caller destination : ℕ)
    (pda_balance dest_balance amount : ℕ) :
    Except MmWalletError (ℕ × ℕ) :=
  if caller ≠ w.owner then .error .Unauthorized
  else if w.is_locked now then .error .WalletLocked
  else if destination ≠ w.owner then .error .InvalidWithdrawDestination
  else if amount ≤ pda_balance - MIN_RENT_RESERVE then
    .ok (pda_balance - amount, u64wrapAdd dest_balance amount)
  else .error .BelowRentReserve

/-- Token withdrawal handler.  Returns the unchanged wallet record paired
with the token transfer performed: `none` on the zero-balance early
return, `some amount` when the full PDA token balance is transferred. -/
def withdraw_tokens (w : MmWallet) (now : ℤ) (caller mint_key : ℕ)
    (pda_token_amount : ℕ) :
    Except MmWalletError (MmWallet × Option ℕ) :=
  if caller ≠ w.owner then .error .Unauthorized
  else if w.is_locked now then .error .WalletLocked
  else if mint_key ≠ w.token_mint then .error .TokenMintMismatch
  else if pda_token_amount = 0 then .ok (w, none)
  else .ok (w, some pda_token_amount)

/-- Post-trade stats update shared by the three trade handlers:
`total_volume.saturating_add(vol)`, `total_trades.saturating_add(1)`,
`last_trade = now`. -/
def tradeStats (w : MmWallet) (now : ℤ) (vol : ℕ) : MmWallet :=
  { w with total_volume := u64satAdd w.total_volume vol,
           total_trades := u64satAdd w.total_trades 1,
           last_trade := now }

/-- Buy handler on the bonding-curve venue: authorization, pause,
rate-limit, then the two balance checks against
`available = pda_balance.saturating_sub(MIN_RENT_RESERVE)`, then the
target-program check, then the on-chain min-output computation; volume
grows by the SOL input `amount_lamports`. -/
def execute_buy (w : MmWallet) (now : ℤ) (caller target : ℕ)
    (pda_balance amount_lamports expected_tokens : ℕ) :
    Except MmWalletError MmWallet :=
  if ¬ w.is_authorized caller then .error .UnauthorizedOperator
  else if w.paused then .error .TradingPaused
  else if ¬ w.can_trade now then .error .TradeTooSoon
  else
    match w.max_trade_amount (pda_balance - MIN_RENT_RESERVE) with
    | .error e => .error e
    | .ok max_trade =>
      if ¬ (amount_lamports ≤ max_trade) then .error .TradeExceedsMax
      else if ¬ (amount_lamports ≤ pda_balance - MIN_RENT_RESERVE) then
        .error .InsufficientBalance
      else if target ≠ PUMP_FUN_PROGRAM then .error .InvalidProgram
      else match w.calculate_min_output expected_tokens with
      | .error e => .error e
      | .ok _ => .ok (tradeStats w now amount_lamports)

/-- Sell handler on the bonding-curve venue: authorization, pause,
rate-limit, target-program check, min-output computation; no balance
check, and volume grows by the caller-supplied `expected_sol` (the
`token_amount` input only feeds the CPI payload). -/
def execute_sell (w : MmWallet) (now : ℤ) (caller target : ℕ)
    (_token_amount expected_sol : ℕ) :
    Except MmWalletError MmWallet :=
  if ¬ w.is_authorized caller then .error .UnauthorizedOperator
  else if w.paused then .error .TradingPaused
  else if ¬ w.can_trade now then .error .TradeTooSoon
  else if target ≠ PUMP_FUN_PROGRAM then .error .InvalidProgram
  else match w.calculate_min_output expected_sol with
  | .error e => .error e
  | .ok _ => .ok (tradeStats w now expected_sol)

/-- Swap handler on the AMM venue: authorization, pause, rate-limit and
target-program checks always; the two balance checks only on the buy
side (`is_buy = true`); volume grows by `amount_in` either way. -/
def execute_swap (w : MmWallet) (now : ℤ) (caller target : ℕ)
    (pda_balance amount_in expected_out : ℕ) (is_buy : Bool) :
    Except MmWalletError MmWallet :=
  if ¬ w.is_authorized caller then .error .UnauthorizedOperator
  else if w.paused then .error .TradingPaused
  else if ¬ w.can_trade now then .error .TradeTooSoon
  else if target ≠ PUMPSWAP_PROGRAM then .error .InvalidProgram
  else if is_buy then
    match w.max_trade_amount (pda_balance - MIN_RENT_RESERVE) with
    | .error e => .error e
    | .ok max_trade =>
      if ¬ (amount_in ≤ max_trade) then .error .TradeExceedsMax
      else if ¬ (amount_in ≤ pda_balance - MIN_RENT_RESERVE) then
        .error .InsufficientBalance
      else match w.calculate_min_output expected_out with
      | .error e => .error e
      | .ok _ => .ok (tradeStats w now amount_in)
  else match w.calculate_min_output expected_out with
  | .error e => .error e
  | .ok _ => .ok (tradeStats w now amount_in)

/-- Creator-fee claim handler: the fee amount is the vault balance delta
(`balance_after.saturating_sub(balance_before)`), accumulated with a
saturating add. -/
def claim_fees (w : MmWallet) (caller : ℕ)
    (balance_before balance_after : ℕ) :
    Except MmWalletError MmWallet :=
  if ¬ w.is_authorized caller then .error .UnauthorizedOperator
  else if w.paused then .error .TradingPaused
  else if ¬ w.is_creator then .error .Unauthorized
  else .ok { w with total_fees_claimed :=
               u64satAdd w.total_fees_claimed (balance_after - balance_before) }

/-- Token-creation handler: owner-only, requires `token_mint` still null,
sets `is_creator := true`.  It does not write `token_mint` (the metadata
strings only feed the CPI payload). -/
def create_token (w : MmWallet) (caller : ℕ)
    (_tname _tsymbol _turi : String) :
    Except MmWalletError MmWallet :=
  if caller ≠ w.owner then .error .Unauthorized
  else if w.token_mint ≠ 0 then .error .AlreadyInitialized
  else .ok { w with is_creator := true }

/-- One-time mint registration: owner-only, requires `token_mint` still
null, then records the mint key. -/
def set_token_mint (w : MmWallet) (caller mint_key : ℕ) :
    Except MmWalletError MmWallet :=
  if caller ≠ w.owner then .error .Unauthorized
  else if w.token_mint ≠ 0 then .error .TokenMintAlreadySet
  else .ok { w with token_mint := mint_key }

/-- Strategy/config update: owner-only, config validated, then replaced. -/
def update_strategy (w : MmWallet) (caller : ℕ) (strategy : Strategy)
    (config : StrategyConfig) : Except MmWalletError MmWallet :=
  if caller ≠ w.owner then .error .Unauthorized
  else match validate_config config with
  | .error e => .error e
  | .ok _ => .ok { w with strategy := strategy, config := config }

/-- Operator replacement: owner-only, new operator must be nonnull. -/
def set_operator (w : MmWallet) (caller new_operator : ℕ) :
    Except MmWalletError MmWallet :=
  if caller ≠ w.owner then .error .Unauthorized
  else if new_operator = 0 then .error .InvalidOperator
  else .ok { w with operator := new_operator }

/-- Pause handler: owner-only. -/
def pause (w : MmWallet) (caller : ℕ) : Except MmWalletError MmWallet :=
  if caller ≠ w.owner then .error .Unauthorized
  else .ok { w with paused := true }

/-- Resume handler: owner-only. -/
def resume (w : MmWallet) (caller : ℕ) : Except MmWalletError MmWallet :=
  if caller ≠ w.owner then .error .Unauthorized
  else .ok { w with paused := false }

/-- Lock-extension handler: owner-only; `0 < additional ≤ 365 d`; the
new lock is `(if lock_until > now then lock_until else now) + additional`
with checked i64 addition, and must not pass `now + 5 y` (also a checked
addition). -/
def extend_lock (w : MmWallet) (now : ℤ) (caller : ℕ)
    (additional_seconds : ℤ) : Except MmWalletError MmWallet :=
  if caller ≠ w.owner then .error .Unauthorized
  else if ¬ (0 < additional_seconds ∧ additional_seconds ≤ MAX_LOCK_SECONDS) then
    .error .InvalidLockDuration
  else
    match i64CheckedAdd (if w.lock_until > now then w.lock_until else now)
            additional_seconds MmWalletError.MathOverflow with
    | .error e => .error e
    | .ok new_lock =>
      match i64CheckedAdd now MAX_TOTAL_LOCK_SECONDS MmWalletError.MathOverflow with
      | .error e => .error e
      | .ok max_allowed =>
        if new_lock ≤ max_allowed then .ok { w with lock_until := new_lock }
        else .error .LockTooLong

/-- One step of a sequence of extend-lock calls: a failed call leaves the
wallet unchanged (the host rolls the transaction back). -/
def extendLockStep (w : MmWallet) (p : ℤ × ℕ × ℤ) : MmWallet :=
  match extend_lock w p.1 p.2.1 p.2.2 with
  | .ok w' => w'
  | .error _ => w

/-- Run a whole sequence of extend-lock calls, each given as
(now, caller, additional seconds). -/
def extendLockRun (w : MmWallet) (ps : List (ℤ × ℕ × ℤ)) : MmWallet :=
  ps.foldl extendLockStep w

/-- A valid baseline configuration used to evaluate claims on concrete
inputs (trade size 25%, delays 60/120 s, slippage 1000 bps). -/
def cfgBase : StrategyConfig := ⟨25, 60, 120, 1000, 0, 0, 0⟩

/-- A baseline wallet (owner key 1, operator key 2, unlocked, running,
mint unset, counters zero) used to evaluate claims on concrete inputs. -/
def wBase : MmWallet :=
  { owner := 1, operator := 2, token_mint := 0, nonce := 0,
    strategy := .VolumeBot, config := cfgBase, lock_until := 0,
    paused := false, is_creator := false, total_volume := 0,
    total_trades := 0, total_fees_claimed := 0, last_trade := 0,
    created_at := 0 }

-- ═══════════════ helper lemmas ═══════════════

/-- A value already inside the i64 range is unchanged by the
two's-complement wrap. -/
theorem i64wrap_eq_of_range (x : ℤ) (h1 : -(2 ^ 63) ≤ x) (h2 : x < 2 ^ 63) :
    i64wrap x = x := by
  unfold i64wrap
  have h0 : (0 : ℤ) ≤ x + 2 ^ 63 := by linarith
  have h3 : x + 2 ^ 63 < 2 ^ 64 := by norm_num; linarith
  rw [Int.emod_eq_of_lt h0 h3]
  ring

/-- The only error `calculate_min_output` can produce is `MathOverflow`. -/
theorem calculate_min_output_error (w : MmWallet) (x : ℕ) (e : MmWalletError)
    (h : w.calculate_min_output x = .error e) : e = .MathOverflow := by
  unfold MmWallet.calculate_min_output at h
  split_ifs at h <;> simp_all

/-- The only error `max_trade_amount` can produce is `MathOverflow`. -/
theorem max_trade_amount_error (w : MmWallet) (x : ℕ) (e : MmWalletError)
    (h : w.max_trade_amount x = .error e) : e = .MathOverflow := by
  unfold MmWallet.max_trade_amount at h
  split_ifs at h <;> simp_all

/-- The guarded maximum in `extend_lock` is the lattice maximum. -/
theorem ite_gt_eq_max (a b : ℤ) : (if a > b then a else b) = max a b := by
  rcases le_or_lt a b with h | h
  · rw [if_neg (not_lt.mpr h), max_eq_right h]
  · rw [if_pos h, max_eq_left h.le]

/-- Success characterization of `extend_lock`: owner call, valid
duration, both checked additions in i64 range, result within the 5-year
bound, and the state update is exactly the lock-field write. -/
theorem extend_lock_ok_iff (w : MmWallet) (now : ℤ) (c : ℕ) (a : ℤ)
    (w' : MmWallet) :
    extend_lock w now c a = .ok w' ↔
      (c = w.owner ∧ 0 < a ∧ a ≤ MAX_LOCK_SECONDS ∧
       -(2 ^ 63) ≤ max w.lock_until now + a ∧
       max w.lock_until now + a < 2 ^ 63 ∧
       -(2 ^ 63) ≤ now + MAX_TOTAL_LOCK_SECONDS ∧
       now + MAX_TOTAL_LOCK_SECONDS < 2 ^ 63 ∧
       max w.lock_until now + a ≤ now + MAX_TOTAL_LOCK_SECONDS ∧
       w' = { w with lock_until := max w.lock_until now + a }) := by
  unfold extend_lock i64CheckedAdd
  rw [ite_gt_eq_max]
  split_ifs with h1 h2 h3 h4 <;> simp_all <;> split_ifs <;>
    simp_all [eq_comm]

/-- A successful extend-lock call never lowers `lock_until`. -/
theorem extend_lock_le (w : MmWallet) (now : ℤ) (c : ℕ) (a : ℤ)
    (w' : MmWallet) (h : extend_lock w now c a = .ok w') :
    w.lock_until ≤ w'.lock_until := by
  rcases (extend_lock_ok_iff w now c a w').mp h with
    ⟨_, ha, _, _, _, _, _, _, hw⟩
  rw [hw]
  have := le_max_left w.lock_until now
  simp only []
  omega

/-- When `lastTrade + minDelaySecs` stays inside the i64 range, the
source's wrapped rate-limit check agrees with the spec's unbounded one. -/
theorem can_trade_no_wrap (w : MmWallet) (t : ℤ)
    (h1 : -(2 ^ 63) ≤ w.last_trade)
    (h2 : w.last_trade + (w.config.min_delay_secs : ℤ) < 2 ^ 63) :
    w.can_trade t = canTradeSpec w t := by
  unfold MmWallet.can_trade canTradeSpec
  by_cases h0 : w.last_trade = 0
  · simp [h0]
  · have hd : (0 : ℤ) ≤ (w.config.min_delay_secs : ℤ) := Int.natCast_nonneg _
    have hr : i64wrap (w.last_trade + (w.config.min_delay_secs : ℤ)) =
        w.last_trade + (w.config.min_delay_secs : ℤ) :=
      i64wrap_eq_of_range _ (by omega) h2
    simp [h0, hr]

-- ═══════════════ claim theorems ═══════════════

/-- C1 counterexample.  The claim says the rate-limit check
`lastTrade + minDelaySecs` in `canTrade` never wraps; at
`lastTrade = 2^63 - 1`, `minDelaySecs = 2`, `now = 0` the unchecked i64
addition wraps and flips the result: the source computation answers
`true` while the unbounded-arithmetic reading of the same check answers
`false`. -/
theorem c1_counterexample :
    MmWallet.can_trade
      { wBase with last_trade := 2 ^ 63 - 1,
                   config := { cfgBase with min_delay_secs := 2 } } 0 = true ∧
    canTradeSpec
      { wBase with last_trade := 2 ^ 63 - 1,
                   config := { cfgBase with min_delay_secs := 2 } } 0 = false := by
  constructor
  · decide
  · decide

/-- C1 (amended).  Arithmetic in the handlers and policy primitives is
overflow-checked or saturating except for the unchecked i64 addition in
`canTrade` and the raw lamport updates in `withdraw`: `canTrade` agrees
with unbounded arithmetic whenever `lastTrade + minDelaySecs` fits in
i64, and on every successful `withdraw` the requested amount is at most
the vault balance, so the vault-side balance subtraction is exact and
never wraps (the destination-side addition remains unchecked). -/
theorem c1_checked_arithmetic :
    (∀ (w : MmWallet) (t : ℤ),
        -(2 ^ 63) ≤ w.last_trade →
        w.last_trade + (w.config.min_delay_secs : ℤ) < 2 ^ 63 →
        w.can_trade t = canTradeSpec w t) ∧
    (∀ (w : MmWallet) (now : ℤ) (c d pb db amt p q : ℕ),
        withdraw w now c d pb db amt = .ok (p, q) →
        amt ≤ pb ∧ p + amt = pb ∧ amt ≤ pb - MIN_RENT_RESERVE) := by
  constructor
  · exact can_trade_no_wrap
  · intro w now c d pb db amt p q h
    unfold withdraw at h
    split_ifs at h with h1 h2 h3 h4 <;> simp_all
    obtain ⟨hp, _⟩ := h
    unfold MIN_RENT_RESERVE at *
    omega

/-- C1 witness: a concrete in-range rate-limit check and a concrete
successful withdrawal, with the amended theorem applied to both. -/
theorem c1_checked_arithmetic_witness :
    wBase.can_trade 5 = canTradeSpec wBase 5 ∧
    (5000000 ≤ 30000000 ∧ 25000000 + 5000000 = 30000000 ∧
     5000000 ≤ 30000000 - MIN_RENT_RESERVE) := by
  constructor
  · exact c1_checked_arithmetic.1 wBase 5 (by decide) (by decide)
  · exact c1_checked_arithmetic.2 wBase 0 1 1 30000000 0 5000000
      25000000 5000000 (by decide)

/-- C4 counterexample.  The claim says `calculateMinOutput(e)` returns
`floor(e * (10000 - s) / 10000)` for every expected output `e`; at
`s = 10`, `e = 2^64 - 1` the checked multiplication overflows u64 and
the function returns `MathOverflow` instead of that floor value. -/
theorem c4_counterexample :
    MmWallet.calculate_min_output
      { wBase with config := { cfgBase with slippage_bps := 10 } }
      (2 ^ 64 - 1) = .error .MathOverflow ∧
    MmWallet.calculate_min_output
      { wBase with config := { cfgBase with slippage_bps := 10 } }
      (2 ^ 64 - 1) ≠ .ok ((2 ^ 64 - 1) * (10000 - 10) / 10000) := by
  constructor
  · decide
  · decide

/-- C4 (amended).  `calculateMinOutput(e)` returns
`floor(e * (10000 - s) / 10000)` whenever the product fits in u64 (and
fails with `MathOverflow` otherwise); for `s ∈ [10, 5000]` every
successful result is at most `e`; for `s = 0` it returns `e` whenever
`e * 10000` fits in u64, without panicking; and for `s > 10000` the
checked subtraction fails with `MathOverflow` rather than panicking. -/
theorem c4_calculate_min_output :
    (∀ (w : MmWallet) (e : ℕ),
        w.config.slippage_bps ≤ 10000 →
        e * (10000 - w.config.slippage_bps) ≤ U64MAX →
        w.calculate_min_output e =
          .ok (e * (10000 - w.config.slippage_bps) / 10000)) ∧
    (∀ (w : MmWallet) (e r : ℕ),
        10 ≤ w.config.slippage_bps → w.config.slippage_bps ≤ 5000 →
        w.calculate_min_output e = .ok r → r ≤ e) ∧
    (∀ (w : MmWallet) (e : ℕ),
        w.config.slippage_bps = 0 → e * 10000 ≤ U64MAX →
        w.calculate_min_output e = .ok e) ∧
    (∀ (w : MmWallet) (e : ℕ),
        10000 < w.config.slippage_bps →
        w.calculate_min_output e = .error .MathOverflow) := by
  refine ⟨?_, ?_, ?_, ?_⟩
  · intro w e h1 h2
    unfold MmWallet.calculate_min_output
    rw [if_pos h1, if_pos h2]
  · intro w e r h1 h2 h
    unfold MmWallet.calculate_min_output at h
    split_ifs at h with ha hb
    simp only [Except.ok.injEq] at h
    rw [← h]
    calc e * (10000 - w.config.slippage_bps) / 10000
        ≤ e * 10000 / 10000 :=
          Nat.div_le_div_right (Nat.mul_le_mul_left e (by omega))
      _ = e := Nat.mul_div_cancel e (by norm_num)
  · intro w e h0 h2
    unfold MmWallet.calculate_min_output
    rw [h0]
    simp only [Nat.sub_zero]
    rw [if_pos (by norm_num), if_pos h2,
        Nat.mul_div_cancel e (by norm_num : 0 < 10000)]
  · intro w e h
    unfold MmWallet.calculate_min_output
    rw [if_neg (by omega)]

/-- C4 witness: the spec's concrete scenario, 100 expected at 1000 bps
slippage yields 90, via the amended theorem. -/
theorem c4_calculate_min_output_witness :
    wBase.config.slippage_bps ≤ 10000 ∧
    100 * (10000 - wBase.config.slippage_bps) ≤ U64MAX ∧
    wBase.calculate_min_output 100 = .ok 90 := by
  refine ⟨by decide, by decide, ?_⟩
  rw [c4_calculate_min_output.1 wBase 100 (by decide) (by decide)]
  decide

/-- C6 counterexample.  The claim says `canTrade(t)` is true iff
`T == 0 ∨ t ≥ T + D` for every lastTrade `T`; at `T = 2^63 - 1`,
`D = 1`, `t = 0` the wrapped source computation answers true although
`T ≠ 0` and `t < T + D`. -/
theorem c6_counterexample :
    MmWallet.can_trade
      { wBase with last_trade := 2 ^ 63 - 1,
                   config := { cfgBase with min_delay_secs := 1 } } 0 = true ∧
    ¬((2 ^ 63 - 1 : ℤ) = 0 ∨ (2 ^ 63 - 1 : ℤ) + ((1 : ℕ) : ℤ) ≤ 0) := by
  constructor
  · decide
  · decide

/-- C6 (amended).  Whenever `lastTrade + minDelaySecs` fits in i64,
`canTrade(t)` is true iff `lastTrade == 0 ∨ t ≥ lastTrade + minDelaySecs`,
and in particular the boundary `t = lastTrade + minDelaySecs` is
tradeable. -/
theorem c6_can_trade :
    (∀ (w : MmWallet) (t : ℤ),
        -(2 ^ 63) ≤ w.last_trade →
        w.last_trade + (w.config.min_delay_secs : ℤ) < 2 ^ 63 →
        (w.can_trade t = true ↔
          (w.last_trade = 0 ∨ w.last_trade + (w.config.min_delay_secs : ℤ) ≤ t))) ∧
    (∀ (w : MmWallet),
        -(2 ^ 63) ≤ w.last_trade →
        w.last_trade + (w.config.min_delay_secs : ℤ) < 2 ^ 63 →
        w.can_trade (w.last_trade + (w.config.min_delay_secs : ℤ)) = true) := by
  constructor
  · intro w t h1 h2
    rw [can_trade_no_wrap w t h1 h2]
    unfold canTradeSpec
    simp
  · intro w h1 h2
    rw [can_trade_no_wrap w _ h1 h2]
    unfold canTradeSpec
    simp

/-- C6 witness: the spec's scenario `minDelaySecs = 60`,
`lastTrade = 1000`, where the boundary instant 1060 is tradeable, via
the amended theorem. -/
theorem c6_can_trade_witness :
    -(2 ^ 63) ≤ (1000 : ℤ) ∧
    MmWallet.can_trade
      { wBase with last_trade := 1000,
                   config := { cfgBase with min_delay_secs := 60 } } 1060 = true := by
  refine ⟨by decide, ?_⟩
  exact (c6_can_trade.1 _ 1060 (by decide) (by decide)).mpr (by decide)

/-- C2 counterexample.  The claim says every successful withdraw leaves
the vault with at least the rent reserve; with an empty vault the
zero-amount withdrawal succeeds and leaves the vault at 0, below the
10,000,000-lamport reserve. -/
theorem c2_counterexample :
    withdraw wBase 0 1 1 0 0 0 = .ok (0, 0) ∧ 0 < MIN_RENT_RESERVE := by
  constructor
  · decide
  · decide

/-- C2 (amended).  A successful withdraw leaves the vault with at least
`min(previous balance, rent reserve)` — so at least the rent reserve
whenever the vault held the reserve beforehand; it succeeds exactly when
the caller is the owner, the wallet is unlocked, the destination is the
owner and `amount ≤ vaultBalance ∸ rentReserve`; otherwise it fails, in
that order of checks, with `Unauthorized`, `WalletLocked`,
`InvalidWithdrawDestination`, or `BelowRentReserve`. -/
theorem c2_withdraw :
    (∀ (w : MmWallet) (now : ℤ) (c dst pb db amt p q : ℕ),
        withdraw w now c dst pb db amt = .ok (p, q) ↔
          (c = w.owner ∧ w.is_locked now = false ∧ dst = w.owner ∧
           amt ≤ pb - MIN_RENT_RESERVE ∧ p = pb - amt ∧
           q = u64wrapAdd db amt)) ∧
    (∀ (w : MmWallet) (now : ℤ) (c dst pb db amt : ℕ),
        c ≠ w.owner →
        withdraw w now c dst pb db amt = .error .Unauthorized) ∧
    (∀ (w : MmWallet) (now : ℤ) (c dst pb db amt : ℕ),
        c = w.owner → w.is_locked now = true →
        withdraw w now c dst pb db amt = .error .WalletLocked) ∧
    (∀ (w : MmWallet) (now : ℤ) (c dst pb db amt : ℕ),
        c = w.owner → w.is_locked now = false → dst ≠ w.owner →
        withdraw w now c dst pb db amt = .error .InvalidWithdrawDestination) ∧
    (∀ (w : MmWallet) (now : ℤ) (c dst pb db amt : ℕ),
        c = w.owner → w.is_locked now = false → dst = w.owner →
        ¬ (amt ≤ pb - MIN_RENT_RESERVE) →
        withdraw w now c dst pb db amt = .error .BelowRentReserve) ∧
    (∀ (w : MmWallet) (now : ℤ) (c dst pb db amt p q : ℕ),
        withdraw w now c dst pb db amt = .ok (p, q) →
        min pb MIN_RENT_RESERVE ≤ p ∧
        (MIN_RENT_RESERVE ≤ pb → MIN_RENT_RESERVE ≤ p)) := by
  have hiff : ∀ (w : MmWallet) (now : ℤ) (c dst pb db amt p q : ℕ),
      withdraw w now c dst pb db amt = .ok (p, q) ↔
        (c = w.owner ∧ w.is_locked now = false ∧ dst = w.owner ∧
         amt ≤ pb - MIN_RENT_RESERVE ∧ p = pb - amt ∧
         q = u64wrapAdd db amt) := by
    intro w now c dst pb db amt p q
    unfold withdraw
    split_ifs with h1 h2 h3 h4
    · exact iff_of_false (by simp) (fun hx => h1 hx.1)
    · exact iff_of_false (by simp)
        (fun hx => by rw [hx.2.1] at h2; exact Bool.noConfusion h2)
    · exact iff_of_false (by simp) (fun hx => h3 hx.2.2.1)
    · constructor
      · intro hx
        obtain ⟨hp, hq⟩ := Prod.mk.inj (Except.ok.inj hx)
        exact ⟨not_ne_iff.mp h1, by simpa using h2, not_ne_iff.mp h3,
               h4, hp.symm, hq.symm⟩
      · rintro ⟨-, -, -, -, hp, hq⟩
        rw [hp, hq]
    · exact iff_of_false (by simp) (fun hx => h4 hx.2.2.2.1)
  refine ⟨hiff, ?_, ?_, ?_, ?_, ?_⟩
  · intro w now c dst pb db amt h1
    unfold withdraw
    rw [if_pos h1]
  · intro w now c dst pb db amt h1 h2
    unfold withdraw
    rw [if_neg (by simp [h1]), if_pos h2]
  · intro w now c dst pb db amt h1 h2 h3
    unfold withdraw
    rw [if_neg (by simp [h1]), if_neg (by simp [h2]), if_pos h3]
  · intro w now c dst pb db amt h1 h2 h3 h4
    unfold withdraw
    rw [if_neg (by simp [h1]), if_neg (by simp [h2]),
        if_neg (by simp [h3]), if_neg h4]
  · intro w now c dst pb db amt p q h
    rcases (hiff w now c dst pb db amt p q).mp h with ⟨_, _, _, h4, hp, _⟩
    subst hp
    constructor
    · rcases le_total MIN_RENT_RESERVE pb with hle | hle
      · rw [min_eq_right hle]; omega
      · rw [min_eq_left hle]; omega
    · intro hle
      omega

/-- C2 witness: a concrete withdrawal of 5,000,000 lamports from a
30,000,000-lamport vault succeeds via the amended characterization, and
leaves at least the reserve. -/
theorem c2_withdraw_witness :
    withdraw wBase 0 1 1 30000000 0 5000000 = .ok (25000000, 5000000) ∧
    MIN_RENT_RESERVE ≤ 30000000 ∧ MIN_RENT_RESERVE ≤ 25000000 := by
  have h : withdraw wBase 0 1 1 30000000 0 5000000 = .ok (25000000, 5000000) :=
    (c2_withdraw.1 wBase 0 1 1 30000000 0 5000000 25000000 5000000).mpr
      (by refine ⟨rfl, by decide, rfl, by decide, by decide, by decide⟩)
  refine ⟨h, by decide,
    (c2_withdraw.2.2.2.2.2 wBase 0 1 1 30000000 0 5000000 25000000 5000000 h).2
      (by decide)⟩

/-- Unfolded form of `extend_lock`: the two checked i64 additions and
the guarded maximum written out as one chain of conditionals. -/
theorem extend_lock_unfold (w : MmWallet) (now : ℤ) (c : ℕ) (a : ℤ) :
    extend_lock w now c a =
      if c ≠ w.owner then .error .Unauthorized
      else if ¬ (0 < a ∧ a ≤ MAX_LOCK_SECONDS) then .error .InvalidLockDuration
      else if ¬ (-(2 ^ 63) ≤ max w.lock_until now + a ∧
                 max w.lock_until now + a < 2 ^ 63) then .error .MathOverflow
      else if ¬ (-(2 ^ 63) ≤ now + MAX_TOTAL_LOCK_SECONDS ∧
                 now + MAX_TOTAL_LOCK_SECONDS < 2 ^ 63) then .error .MathOverflow
      else if max w.lock_until now + a ≤ now + MAX_TOTAL_LOCK_SECONDS then
        .ok { w with lock_until := max w.lock_until now + a }
      else .error .LockTooLong := by
  unfold extend_lock i64CheckedAdd
  rw [ite_gt_eq_max]
  split_ifs <;> simp_all

/-- C3 counterexample.  The claim says any call whose resulting
lockUntil would exceed now + 5 years fails with `LockTooLong`; at
`lockUntil = 2^63 - 1`, `now = 0`, `additional = 1` the resulting lock
`max(lockUntil, now) + 1` exceeds `now + 5 years`, yet the call fails
with `MathOverflow` (the checked i64 addition overflows first). -/
theorem c3_counterexample :
    extend_lock { wBase with lock_until := 2 ^ 63 - 1 } 0 1 1 =
      .error .MathOverflow ∧
    MmWalletError.MathOverflow ≠ MmWalletError.LockTooLong ∧
    (0 : ℤ) + MAX_TOTAL_LOCK_SECONDS < max (2 ^ 63 - 1 : ℤ) 0 + 1 := by
  refine ⟨by decide, by decide, by decide⟩

/-- C3 (amended).  Over any sequence of extend-lock calls `lockUntil`
never decreases; a successful call with additional seconds `a`
(0 < a ≤ 365 days, else `InvalidLockDuration`) sets
`lockUntil = max(lockUntil, now) + a`, strictly above the old value; and
a call whose resulting lockUntil would exceed now + 5 years fails — with
`LockTooLong` when the checked i64 additions stay in range, and with
`MathOverflow` on i64 overflow — always leaving `lockUntil` unchanged. -/
theorem c3_extend_lock :
    (∀ (w : MmWallet) (ps : List (ℤ × ℕ × ℤ)),
        w.lock_until ≤ (extendLockRun w ps).lock_until) ∧
    (∀ (w : MmWallet) (now : ℤ) (c : ℕ) (a : ℤ) (w' : MmWallet),
        extend_lock w now c a = .ok w' →
        w'.lock_until = max w.lock_until now + a ∧
        w.lock_until < w'.lock_until) ∧
    (∀ (w : MmWallet) (now : ℤ) (c : ℕ) (a : ℤ),
        c = w.owner → ¬ (0 < a ∧ a ≤ MAX_LOCK_SECONDS) →
        extend_lock w now c a = .error .InvalidLockDuration) ∧
    (∀ (w : MmWallet) (now : ℤ) (c : ℕ) (a : ℤ),
        c = w.owner → 0 < a → a ≤ MAX_LOCK_SECONDS →
        -(2 ^ 63) ≤ w.lock_until → -(2 ^ 63) ≤ now →
        max w.lock_until now + a < 2 ^ 63 →
        now + MAX_TOTAL_LOCK_SECONDS < 2 ^ 63 →
        now + MAX_TOTAL_LOCK_SECONDS < max w.lock_until now + a →
        extend_lock w now c a = .error .LockTooLong) := by
  refine ⟨?_, ?_, ?_, ?_⟩
  · intro w ps
    induction ps generalizing w with
    | nil => exact le_refl _
    | cons p ps ih =>
      have hstep : w.lock_until ≤ (extendLockStep w p).lock_until := by
        unfold extendLockStep
        cases h : extend_lock w p.1 p.2.1 p.2.2 with
        | ok w' => exact extend_lock_le w p.1 p.2.1 p.2.2 w' h
        | error e => exact le_refl _
      exact le_trans hstep (ih (extendLockStep w p))
  · intro w now c a w' h
    rcases (extend_lock_ok_iff w now c a w').mp h with
      ⟨_, ha, _, _, _, _, _, _, hw⟩
    subst hw
    have := le_max_left w.lock_until now
    constructor
    · rfl
    · simp only []
      omega
  · intro w now c a hc ha
    rw [extend_lock_unfold, if_neg (by simp [hc]), if_pos ha]
  · intro w now c a hc ha1 ha2 hl hn hr1 hr2 hexc
    have hmax := le_max_left w.lock_until now
    have hM : MAX_TOTAL_LOCK_SECONDS = 157680000 := rfl
    have hM2 : MAX_LOCK_SECONDS = 31536000 := rfl
    rw [extend_lock_unfold, if_neg (by simp [hc]),
        if_neg (not_not.mpr ⟨ha1, ha2⟩),
        if_neg (not_not.mpr ⟨by omega, hr1⟩),
        if_neg (not_not.mpr ⟨by omega, hr2⟩),
        if_neg (by omega)]

/-- C3 witness: extending a fresh wallet's lock by one day at time 0
succeeds, yields exactly `max(0, 0) + 86400`, and is monotone on the
singleton call sequence, all via the amended theorem. -/
theorem c3_extend_lock_witness :
    wBase.lock_until ≤ (extendLockRun wBase [(0, 1, 86400)]).lock_until ∧
    ({ wBase with lock_until := max wBase.lock_until 0 + 86400 } :
      MmWallet).lock_until = max wBase.lock_until 0 + 86400 ∧
    wBase.lock_until <
      ({ wBase with lock_until := max wBase.lock_until 0 + 86400 } :
        MmWallet).lock_until := by
  refine ⟨c3_extend_lock.1 wBase [(0, 1, 86400)], ?_, ?_⟩
  · exact (c3_extend_lock.2.1 wBase 0 1 86400 _ (by decide)).1
  · exact (c3_extend_lock.2.1 wBase 0 1 86400 _ (by decide)).2

/-- A successful buy ends in exactly the shared stats update. -/
theorem execute_buy_ok_elim (w : MmWallet) (now : ℤ) (c tgt pb al et : ℕ)
    (w' : MmWallet) (h : execute_buy w now c tgt pb al et = .ok w') :
    w' = tradeStats w now al := by
  unfold execute_buy at h
  iterate 8 all_goals try (first | split_ifs at h | split at h)
  all_goals
    first
      | exact (Except.ok.inj h).symm
      | exact Except.noConfusion h
      | simp_all

/-- A successful sell ends in exactly the shared stats update, with the
caller-supplied `expected_sol` as the volume increment. -/
theorem execute_sell_ok_elim (w : MmWallet) (now : ℤ) (c tgt ta es : ℕ)
    (w' : MmWallet) (h : execute_sell w now c tgt ta es = .ok w') :
    w' = tradeStats w now es := by
  unfold execute_sell at h
  iterate 8 all_goals try (first | split_ifs at h | split at h)
  all_goals
    first
      | exact (Except.ok.inj h).symm
      | exact Except.noConfusion h
      | simp_all

/-- A successful swap ends in exactly the shared stats update, on either
side of `is_buy`. -/
theorem execute_swap_ok_elim (w : MmWallet) (now : ℤ) (c tgt pb ai eo : ℕ)
    (b : Bool) (w' : MmWallet)
    (h : execute_swap w now c tgt pb ai eo b = .ok w') :
    w' = tradeStats w now ai := by
  unfold execute_swap at h
  iterate 8 all_goals try (first | split_ifs at h | split at h)
  all_goals
    first
      | exact (Except.ok.inj h).symm
      | exact Except.noConfusion h
      | simp_all

/-- Every failure of a sell-side swap is one of the four shared guards
or the min-output overflow; the two balance-check errors cannot occur. -/
theorem execute_swap_sell_error (w : MmWallet) (now : ℤ) (c tgt pb ai eo : ℕ)
    (e : MmWalletError)
    (h : execute_swap w now c tgt pb ai eo false = .error e) :
    e = .UnauthorizedOperator ∨ e = .TradingPaused ∨ e = .TradeTooSoon ∨
    e = .InvalidProgram ∨ e = .MathOverflow := by
  unfold execute_swap at h
  iterate 8 all_goals try (first | split_ifs at h | split at h)
  all_goals
    first
      | exact Except.noConfusion h
      | (obtain rfl := (Except.error.inj h).symm
         first
           | tauto
           | exact Or.inr (Or.inr (Or.inr (Or.inr
               (calculate_min_output_error w eo _ (by assumption))))))
      | simp_all

/-- C5.  `validateConfig` checks trade-size bounds, then slippage
bounds, then delay ordering; the first violated check determines the
error kind; it rejects tradeSizePct 0 and 51, slippageBps 9 and 5001
and minDelay > maxDelay, and accepts the boundary values 1, 50, 10,
5000 and minDelay = maxDelay. -/
theorem c5_validate_config :
    (∀ c : StrategyConfig,
        validate_config c = .ok () ↔
          (1 ≤ c.trade_size_pct ∧ c.trade_size_pct ≤ 50 ∧
           10 ≤ c.slippage_bps ∧ c.slippage_bps ≤ 5000 ∧
           c.min_delay_secs ≤ c.max_delay_secs)) ∧
    (∀ c : StrategyConfig,
        ¬ (1 ≤ c.trade_size_pct ∧ c.trade_size_pct ≤ 50) →
        validate_config c = .error .InvalidTradeSize) ∧
    (∀ c : StrategyConfig,
        1 ≤ c.trade_size_pct → c.trade_size_pct ≤ 50 →
        ¬ (10 ≤ c.slippage_bps ∧ c.slippage_bps ≤ 5000) →
        validate_config c = .error .InvalidSlippage) ∧
    (∀ c : StrategyConfig,
        1 ≤ c.trade_size_pct → c.trade_size_pct ≤ 50 →
        10 ≤ c.slippage_bps → c.slippage_bps ≤ 5000 →
        c.max_delay_secs < c.min_delay_secs →
        validate_config c = .error .InvalidDelayConfig) ∧
    (validate_config ⟨1, 5, 5, 10, 0, 0, 0⟩ = .ok () ∧
     validate_config ⟨50, 7, 7, 5000, 0, 0, 0⟩ = .ok () ∧
     validate_config ⟨0, 5, 5, 500, 0, 0, 0⟩ = .error .InvalidTradeSize ∧
     validate_config ⟨51, 5, 5, 500, 0, 0, 0⟩ = .error .InvalidTradeSize ∧
     validate_config ⟨25, 5, 5, 9, 0, 0, 0⟩ = .error .InvalidSlippage ∧
     validate_config ⟨25, 5, 5, 5001, 0, 0, 0⟩ = .error .InvalidSlippage ∧
     validate_config ⟨25, 100, 60, 500, 0, 0, 0⟩ = .error .InvalidDelayConfig) := by
  refine ⟨?_, ?_, ?_, ?_, ?_⟩
  · intro c
    unfold validate_config MAX_TRADE_PCT MIN_SLIPPAGE_BPS MAX_SLIPPAGE_BPS
    split_ifs with h1 h2 h3 <;>
      first
        | (exact iff_of_true rfl ⟨h1.1, h1.2, h2.1, h2.2, h3⟩)
        | (exact iff_of_false (by simp) (by tauto))
  · intro c hc
    unfold validate_config MAX_TRADE_PCT
    rw [if_neg hc]
  · intro c h1 h2 hs
    unfold validate_config MAX_TRADE_PCT MIN_SLIPPAGE_BPS MAX_SLIPPAGE_BPS
    rw [if_pos ⟨h1, h2⟩, if_neg hs]
  · intro c h1 h2 h3 h4 hd
    unfold validate_config MAX_TRADE_PCT MIN_SLIPPAGE_BPS MAX_SLIPPAGE_BPS
    rw [if_pos ⟨h1, h2⟩, if_pos ⟨h3, h4⟩, if_neg (by omega)]
  · refine ⟨by decide, by decide, by decide, by decide, by decide,
      by decide, by decide⟩

/-- C5 witness: the baseline configuration is accepted, and the
rejection of tradeSizePct 0 follows from the order-characterization. -/
theorem c5_validate_config_witness :
    validate_config cfgBase = .ok () ∧
    validate_config ⟨0, 60, 120, 1000, 0, 0, 0⟩ = .error .InvalidTradeSize := by
  constructor
  · exact (c5_validate_config.1 cfgBase).mpr (by decide)
  · exact c5_validate_config.2.1 ⟨0, 60, 120, 1000, 0, 0, 0⟩ (by decide)

/-- C9.  When the caller is the owner, the wallet is unlocked and the
mint matches but the vault token account holds zero tokens,
`withdrawTokens` succeeds with no transfer and the wallet state
unchanged — a deliberate early-return, not an error. -/
theorem c9_withdraw_tokens_noop :
    ∀ (w : MmWallet) (now : ℤ) (c mk : ℕ),
      c = w.owner → w.is_locked now = false → mk = w.token_mint →
      withdraw_tokens w now c mk 0 = .ok (w, none) := by
  intro w now c mk h1 h2 h3
  unfold withdraw_tokens
  rw [if_neg (by simp [h1]), if_neg (by simp [h2]),
      if_neg (by simp [h3]), if_pos rfl]

/-- C9 witness: the baseline wallet's owner withdrawing a zero token
balance gets the successful no-op, via the theorem. -/
theorem c9_withdraw_tokens_noop_witness :
    withdraw_tokens wBase 0 1 0 0 = .ok (wBase, none) :=
  c9_withdraw_tokens_noop wBase 0 1 0 (by decide) (by decide) (by decide)

/-- C7 counterexample.  The claim says `tokenMint` becomes set when
`create-token` runs; on the baseline wallet (mint null) the owner's
`create_token` call succeeds yet the resulting state still has the null
mint — `create_token` only sets `is_creator`. -/
theorem c7_counterexample :
    create_token wBase 1 "n" "s" "u" = .ok { wBase with is_creator := true } ∧
    ({ wBase with is_creator := true } : MmWallet).token_mint = 0 := by
  constructor
  · decide
  · decide

/-- C7 (amended).  `tokenMint` starts null and transitions null→set at
most once, and only through `set_token_mint`: `initialize` creates the
state with a null mint; `set_token_mint` succeeds exactly from the null
state (failing with `TokenMintAlreadySet` afterwards) and can never
succeed twice for a nonnull mint; `create_token` requires the mint null
and leaves it null; and no other state-mutating operation writes
`tokenMint` at all. -/
theorem c7_token_mint_once :
    (∀ (o n : ℕ) (l : ℤ) (st : Strategy) (cfg : StrategyConfig) (op : ℕ)
        (t : ℤ) (w' : MmWallet),
        initWallet o n l st cfg op t = .ok w' → w'.token_mint = 0) ∧
    (∀ (w : MmWallet) (c m : ℕ) (w' : MmWallet),
        set_token_mint w c m = .ok w' →
        w.token_mint = 0 ∧ c = w.owner ∧ w' = { w with token_mint := m }) ∧
    (∀ (w : MmWallet) (c m : ℕ),
        c = w.owner → w.token_mint ≠ 0 →
        set_token_mint w c m = .error .TokenMintAlreadySet) ∧
    (∀ (w : MmWallet) (c m : ℕ) (w' : MmWallet),
        set_token_mint w c m = .ok w' → m ≠ 0 →
        ∀ (c2 m2 : ℕ) (w2 : MmWallet), set_token_mint w' c2 m2 ≠ .ok w2) ∧
    (∀ (w : MmWallet) (c : ℕ) (s1 s2 s3 : String) (w' : MmWallet),
        create_token w c s1 s2 s3 = .ok w' →
        w'.token_mint = 0 ∧ w.token_mint = 0) ∧
    (∀ (w : MmWallet) (c : ℕ) (st : Strategy) (cfg : StrategyConfig)
        (w' : MmWallet),
        update_strategy w c st cfg = .ok w' → w'.token_mint = w.token_mint) ∧
    (∀ (w : MmWallet) (c op : ℕ) (w' : MmWallet),
        set_operator w c op = .ok w' → w'.token_mint = w.token_mint) ∧
    (∀ (w : MmWallet) (c : ℕ) (w' : MmWallet),
        pause w c = .ok w' → w'.token_mint = w.token_mint) ∧
    (∀ (w : MmWallet) (c : ℕ) (w' : MmWallet),
        resume w c = .ok w' → w'.token_mint = w.token_mint) ∧
    (∀ (w : MmWallet) (now : ℤ) (c : ℕ) (a : ℤ) (w' : MmWallet),
        extend_lock w now c a = .ok w' → w'.token_mint = w.token_mint) ∧
    (∀ (w : MmWallet) (now : ℤ) (c tgt pb al et : ℕ) (w' : MmWallet),
        execute_buy w now c tgt pb al et = .ok w' →
        w'.token_mint = w.token_mint) ∧
    (∀ (w : MmWallet) (now : ℤ) (c tgt ta es : ℕ) (w' : MmWallet),
        execute_sell w now c tgt ta es = .ok w' →
        w'.token_mint = w.token_mint) ∧
    (∀ (w : MmWallet) (now : ℤ) (c tgt pb ai eo : ℕ) (b : Bool)
        (w' : MmWallet),
        execute_swap w now c tgt pb ai eo b = .ok w' →
        w'.token_mint = w.token_mint) ∧
    (∀ (w : MmWallet) (c bb ba : ℕ) (w' : MmWallet),
        claim_fees w c bb ba = .ok w' → w'.token_mint = w.token_mint) := by
  have hset : ∀ (w : MmWallet) (c m : ℕ) (w' : MmWallet),
      set_token_mint w c m = .ok w' →
      w.token_mint = 0 ∧ c = w.owner ∧ w' = { w with token_mint := m } := by
    intro w c m w' h
    unfold set_token_mint at h
    split_ifs at h with g1 g2
    exact ⟨not_ne_iff.mp g2, not_ne_iff.mp g1, (Except.ok.inj h).symm⟩
  refine ⟨?_, hset, ?_, ?_, ?_, ?_, ?_, ?_, ?_, ?_, ?_, ?_, ?_, ?_⟩
  · intro o n l st cfg op t w' h
    unfold initWallet at h
    iterate 8 all_goals try (first | split_ifs at h | split at h)
    all_goals
      first
        | exact Except.noConfusion h
        | (rw [← Except.ok.inj h])
  · intro w c m hc hm
    unfold set_token_mint
    rw [if_neg (by simp [hc]), if_pos hm]
  · intro w c m w' h hm c2 m2 w2 heq
    have hw' := (hset w c m w' h).2.2
    have hmint : w'.token_mint = m := by rw [hw']
    unfold set_token_mint at heq
    split_ifs at heq with g1 g2
    exact hm (hmint.symm.trans (not_ne_iff.mp g2))
  · intro w c s1 s2 s3 w' h
    unfold create_token at h
    split_ifs at h with g1 g2
    refine ⟨?_, not_ne_iff.mp g2⟩
    rw [← Except.ok.inj h]
    exact not_ne_iff.mp g2
  · intro w c st cfg w' h
    unfold update_strategy at h
    split_ifs at h with g1
    split at h
    · exact Except.noConfusion h
    · rw [← Except.ok.inj h]
  · intro w c op w' h
    unfold set_operator at h
    split_ifs at h with g1 g2
    rw [← Except.ok.inj h]
  · intro w c w' h
    unfold pause at h
    split_ifs at h with g1
    rw [← Except.ok.inj h]
  · intro w c w' h
    unfold resume at h
    split_ifs at h with g1
    rw [← Except.ok.inj h]
  · intro w now c a w' h
    rcases (extend_lock_ok_iff w now c a w').mp h with
      ⟨-, -, -, -, -, -, -, -, hw⟩
    rw [hw]
  · intro w now c tgt pb al et w' h
    rw [execute_buy_ok_elim w now c tgt pb al et w' h]
    rfl
  · intro w now c tgt ta es w' h
    rw [execute_sell_ok_elim w now c tgt ta es w' h]
    rfl
  · intro w now c tgt pb ai eo b w' h
    rw [execute_swap_ok_elim w now c tgt pb ai eo b w' h]
    rfl
  · intro w c bb ba w' h
    unfold claim_fees at h
    split_ifs at h with g1 g2 g3
    rw [← Except.ok.inj h]

/-- C7 witness: registering mint 7 on the fresh baseline wallet
succeeds exactly as the amended characterization states. -/
theorem c7_token_mint_once_witness :
    wBase.token_mint = 0 ∧ (1 : ℕ) = wBase.owner ∧
    ({ wBase with token_mint := 7 } : MmWallet) =
      { wBase with token_mint := 7 } :=
  c7_token_mint_once.2.1 wBase 1 7 { wBase with token_mint := 7 } (by decide)

/-- C8.  `executeSwap` applies the balance checks only on the buy side:
with `is_buy = false` neither `TradeExceedsMax` nor
`InsufficientBalance` can occur, while the authorization, pause,
rate-limit and AMM-target checks apply on both sides, and on the buy
side the two balance checks against
`available = vaultBalance ∸ rentReserve` produce exactly those two
errors. -/
theorem c8_execute_swap_checks :
    (∀ (w : MmWallet) (now : ℤ) (c tgt pb ai eo : ℕ),
        execute_swap w now c tgt pb ai eo false ≠ .error .TradeExceedsMax ∧
        execute_swap w now c tgt pb ai eo false ≠ .error .InsufficientBalance) ∧
    (∀ (w : MmWallet) (now : ℤ) (c tgt pb ai eo : ℕ) (b : Bool),
        w.is_authorized c = false →
        execute_swap w now c tgt pb ai eo b = .error .UnauthorizedOperator) ∧
    (∀ (w : MmWallet) (now : ℤ) (c tgt pb ai eo : ℕ) (b : Bool),
        w.is_authorized c = true → w.paused = true →
        execute_swap w now c tgt pb ai eo b = .error .TradingPaused) ∧
    (∀ (w : MmWallet) (now : ℤ) (c tgt pb ai eo : ℕ) (b : Bool),
        w.is_authorized c = true → w.paused = false →
        w.can_trade now = false →
        execute_swap w now c tgt pb ai eo b = .error .TradeTooSoon) ∧
    (∀ (w : MmWallet) (now : ℤ) (c tgt pb ai eo : ℕ) (b : Bool),
        w.is_authorized c = true → w.paused = false →
        w.can_trade now = true → tgt ≠ PUMPSWAP_PROGRAM →
        execute_swap w now c tgt pb ai eo b = .error .InvalidProgram) ∧
    (∀ (w : MmWallet) (now : ℤ) (c tgt pb ai eo mt : ℕ),
        w.is_authorized c = true → w.paused = false →
        w.can_trade now = true → tgt = PUMPSWAP_PROGRAM →
        w.max_trade_amount (pb - MIN_RENT_RESERVE) = .ok mt →
        ¬ (ai ≤ mt) →
        execute_swap w now c tgt pb ai eo true = .error .TradeExceedsMax) ∧
    (∀ (w : MmWallet) (now : ℤ) (c tgt pb ai eo mt : ℕ),
        w.is_authorized c = true → w.paused = false →
        w.can_trade now = true → tgt = PUMPSWAP_PROGRAM →
        w.max_trade_amount (pb - MIN_RENT_RESERVE) = .ok mt →
        ai ≤ mt → ¬ (ai ≤ pb - MIN_RENT_RESERVE) →
        execute_swap w now c tgt pb ai eo true = .error .InsufficientBalance) := by
  refine ⟨?_, ?_, ?_, ?_, ?_, ?_, ?_⟩
  · intro w now c tgt pb ai eo
    constructor
    · intro heq
      rcases execute_swap_sell_error w now c tgt pb ai eo _ heq with
        h | h | h | h | h <;> exact MmWalletError.noConfusion h
    · intro heq
      rcases execute_swap_sell_error w now c tgt pb ai eo _ heq with
        h | h | h | h | h <;> exact MmWalletError.noConfusion h
  · intro w now c tgt pb ai eo b hna
    unfold execute_swap
    rw [if_pos (by simp [hna])]
  · intro w now c tgt pb ai eo b ha hp
    unfold execute_swap
    rw [if_neg (by simp [ha]), if_pos hp]
  · intro w now c tgt pb ai eo b ha hp hct
    unfold execute_swap
    rw [if_neg (by simp [ha]), if_neg (by simp [hp]),
        if_pos (by simp [hct])]
  · intro w now c tgt pb ai eo b ha hp hct htgt
    unfold execute_swap
    rw [if_neg (by simp [ha]), if_neg (by simp [hp]),
        if_neg (by simp [hct]), if_pos htgt]
  · intro w now c tgt pb ai eo mt ha hp hct htgt hmt hgt
    unfold execute_swap
    rw [if_neg (by simp [ha]), if_neg (by simp [hp]),
        if_neg (by simp [hct]), if_neg (by simp [htgt]), if_pos rfl, hmt]
    simp [hgt]
  · intro w now c tgt pb ai eo mt ha hp hct htgt hmt hle hnb
    unfold execute_swap
    rw [if_neg (by simp [ha]), if_neg (by simp [hp]),
        if_neg (by simp [hct]), if_neg (by simp [htgt]), if_pos rfl, hmt]
    simp [hle, hnb]

/-- C8 witness: an unauthorized caller is rejected with
`UnauthorizedOperator` on the sell side, via the theorem. -/
theorem c8_execute_swap_checks_witness :
    wBase.is_authorized 5 = false ∧
    execute_swap wBase 0 5 PUMPSWAP_PROGRAM 0 1 1 false =
      .error .UnauthorizedOperator :=
  ⟨by decide,
   c8_execute_swap_checks.2.1 wBase 0 5 PUMPSWAP_PROGRAM 0 1 1 false
     (by decide)⟩

/-- C10.  On every successful trade, `total_volume` grows (saturating)
by the caller-supplied `expected_sol` for `execute_sell` — not by any
measured SOL received — and by the input amount for `execute_buy`
(`amount_lamports`) and `execute_swap` (`amount_in`); in all three,
`total_trades` grows by exactly one (saturating) and `last_trade`
becomes the current timestamp. -/
theorem c10_trade_stats :
    (∀ (w : MmWallet) (now : ℤ) (c tgt ta es : ℕ) (w' : MmWallet),
        execute_sell w now c tgt ta es = .ok w' →
        w'.total_volume = u64satAdd w.total_volume es ∧
        w'.total_trades = u64satAdd w.total_trades 1 ∧
        w'.last_trade = now) ∧
    (∀ (w : MmWallet) (now : ℤ) (c tgt pb al et : ℕ) (w' : MmWallet),
        execute_buy w now c tgt pb al et = .ok w' →
        w'.total_volume = u64satAdd w.total_volume al ∧
        w'.total_trades = u64satAdd w.total_trades 1 ∧
        w'.last_trade = now) ∧
    (∀ (w : MmWallet) (now : ℤ) (c tgt pb ai eo : ℕ) (b : Bool)
        (w' : MmWallet),
        execute_swap w now c tgt pb ai eo b = .ok w' →
        w'.total_volume = u64satAdd w.total_volume ai ∧
        w'.total_trades = u64satAdd w.total_trades 1 ∧
        w'.last_trade = now) := by
  refine ⟨?_, ?_, ?_⟩
  · intro w now c tgt ta es w' h
    rw [execute_sell_ok_elim w now c tgt ta es w' h]
    exact ⟨rfl, rfl, rfl⟩
  · intro w now c tgt pb al et w' h
    rw [execute_buy_ok_elim w now c tgt pb al et w' h]
    exact ⟨rfl, rfl, rfl⟩
  · intro w now c tgt pb ai eo b w' h
    rw [execute_swap_ok_elim w now c tgt pb ai eo b w' h]
    exact ⟨rfl, rfl, rfl⟩

/-- C10 witness: concrete successful sell, buy and swap calls on the
baseline wallet, with the stats equations delivered by the theorem. -/
theorem c10_trade_stats_witness :
    ((tradeStats wBase 5 900).total_volume =
      u64satAdd wBase.total_volume 900 ∧
     (tradeStats wBase 5 900).total_trades =
      u64satAdd wBase.total_trades 1 ∧
     (tradeStats wBase 5 900).last_trade = 5) ∧
    (tradeStats wBase 5 100000).total_volume =
      u64satAdd wBase.total_volume 100000 ∧
    (tradeStats wBase 6 77).last_trade = 6 :=
  ⟨c10_trade_stats.1 wBase 5 2 PUMP_FUN_PROGRAM 700 900
      (tradeStats wBase 5 900) (by decide),
   (c10_trade_stats.2.1 wBase 5 2 PUMP_FUN_PROGRAM 1000000000 100000 50000
      (tradeStats wBase 5 100000) (by decide)).1,
   (c10_trade_stats.2.2 wBase 6 2 PUMPSWAP_PROGRAM 0 77 50000 false
      (tradeStats wBase 6 77) (by decide)).2.2⟩

end MMWhistle
